import Mathlib

/-!
Shallow embedding of `src/floatchat.py` (FloatChat, a Streamlit dashboard
for mock ARGO float data) and verification of its specification.

Strings handled by the query processor are modelled as lists of Unicode
code points (`List Nat`); `lowerCode` models Python's `str.lower` on the
ASCII range exercised by the program.  Numeric data is modelled over `ℚ`.
Time (`datetime.now()`) is an explicit integer parameter.
-/

namespace FloatChat

/-- ASCII lowercasing of one code point, as applied by `query.lower()`. -/
def lowerCode (c : Nat) : Nat :=
  if 65 ≤ c ∧ c ≤ 90 then c + 32 else c

/-- Lowercasing of a whole string (list of code points). -/
def lowerStr (s : List Nat) : List Nat := s.map lowerCode

/-- Code points of a Lean string literal, for writing concrete queries. -/
def codes (s : String) : List Nat := s.data.map Char.toNat

/-- `startsWithL needle hay` - `needle` is an initial segment of `hay`. -/
def startsWithL : List Nat → List Nat → Bool
  | [], _ => true
  | _ :: _, [] => false
  | a :: as, b :: bs => a == b && startsWithL as bs

/-- Python's substring test `needle in hay`: `needle` occurs contiguously. -/
def containsSub (needle : List Nat) : List Nat → Bool
  | [] => startsWithL needle []
  | b :: bs => startsWithL needle (b :: bs) || containsSub needle bs

/-- A response of `process_nl_query`: the dict with keys `text`, `viz_type`. -/
structure NLResponse where
  text : String
  viz_type : Option String
deriving DecidableEq

/-- The canned temperature response (first branch). -/
def temperatureResponse : NLResponse :=
  ⟨"Temperature profile from ARGO float WMO2902756 shows tropical ocean stratification with warm surface waters decreasing to cold deep waters.",
   some "temperature"⟩

/-- The canned salinity response (second branch). -/
def salinityResponse : NLResponse :=
  ⟨"Salinity profile shows subsurface maximum around 200m depth, characteristic of Arabian Sea water masses.",
   some "salinity"⟩

/-- The canned map response (third branch). -/
def mapResponse : NLResponse :=
  ⟨"Found 5 ARGO floats in the Indian Ocean region. Active floats are shown on the map.",
   some "map"⟩

/-- The canned T-S comparison response (fourth branch). -/
def compareResponse : NLResponse :=
  ⟨"T-S diagram comparing temperature and salinity helps identify different water masses.",
   some "compare"⟩

/-- The fallback help response (else branch); `viz_type` is `None`. -/
def helpResponse : NLResponse :=
  ⟨"Try asking: Show temperature profiles, Find floats near coordinates, or Compare salinity data.",
   none⟩

def kwTemperature : List Nat := codes "temperature"
def kwTemp : List Nat := codes "temp"
def kwSalinity : List Nat := codes "salinity"
def kwFloat : List Nat := codes "float"
def kwLocation : List Nat := codes "location"
def kwMap : List Nat := codes "map"
def kwCompare : List Nat := codes "compare"
def kwTs : List Nat := codes "ts"

/-- The eight keywords `process_nl_query` tests, in the order tested. -/
def keywords : List (List Nat) :=
  [kwTemperature, kwTemp, kwSalinity, kwFloat, kwLocation, kwMap, kwCompare, kwTs]

/-- Embedding of `process_nl_query` (src/floatchat.py lines 78-106). -/
def process_nl_query (query : List Nat) : NLResponse :=
  let query_lower := lowerStr query
  if containsSub kwTemperature query_lower || containsSub kwTemp query_lower then
    temperatureResponse
  else if containsSub kwSalinity query_lower then
    salinityResponse
  else if containsSub kwFloat query_lower || containsSub kwLocation query_lower
      || containsSub kwMap query_lower then
    mapResponse
  else if containsSub kwCompare query_lower || containsSub kwTs query_lower then
    compareResponse
  else
    helpResponse

/-- Condition of the first branch of `process_nl_query`. -/
def hitTempQ (q : List Nat) : Bool :=
  containsSub kwTemperature (lowerStr q) || containsSub kwTemp (lowerStr q)

/-- Condition of the second branch of `process_nl_query`. -/
def hitSalQ (q : List Nat) : Bool :=
  containsSub kwSalinity (lowerStr q)

/-- Condition of the third branch of `process_nl_query`. -/
def hitMapQ (q : List Nat) : Bool :=
  containsSub kwFloat (lowerStr q) || containsSub kwLocation (lowerStr q)
    || containsSub kwMap (lowerStr q)

/-- Condition of the fourth branch of `process_nl_query`. -/
def hitCompareQ (q : List Nat) : Bool :=
  containsSub kwCompare (lowerStr q) || containsSub kwTs (lowerStr q)

/-! ## Mock data generator (src/floatchat.py lines 53-76) -/

/-- One row of the `floats` DataFrame. -/
structure FloatRow where
  float_id : String
  latitude : ℚ
  longitude : ℚ
  last_update : ℤ
  status : String
  profiles_count : ℕ
deriving DecidableEq

/-- One row of the `profiles` DataFrame. -/
structure ProfileRow where
  depth : ℚ
  temperature : ℚ
  salinity : ℚ
  pressure : ℚ
deriving DecidableEq

/-- Seconds in a day: the step of `pd.date_range(..., freq='D')`. -/
def secondsPerDay : ℤ := 86400

/-- Literal `float_id` column. -/
def floatIds : List String :=
  ["WMO2902756", "WMO2902757", "WMO2902758", "WMO2902759", "WMO2902760"]

/-- Literal `latitude` column. -/
def latitudes : List ℚ := [8.5, 10.1, 12.3, 6.8, 15.2]

/-- Literal `longitude` column. -/
def longitudes : List ℚ := [76.2, 75.8, 74.5, 77.1, 73.8]

/-- Literal `status` column. -/
def statuses : List String := ["active", "active", "active", "active", "inactive"]

/-- Literal `profiles_count` column. -/
def profilesCounts : List ℕ := [145, 132, 167, 89, 201]

/-- `pd.date_range(end=now, periods=5, freq='D')`: five daily timestamps
ending at the current time. -/
def lastUpdates (now : ℤ) : List ℤ :=
  [now - 4 * secondsPerDay, now - 3 * secondsPerDay, now - 2 * secondsPerDay,
   now - 1 * secondsPerDay, now]

/-- Literal `depths` array. -/
def depths : List ℚ := [0, 50, 100, 200, 500, 1000, 1500, 2000]

/-- Literal `temperature` array. -/
def temperatureArr : List ℚ := [28.5, 26.2, 23.1, 18.5, 12.3, 6.8, 4.2, 2.5]

/-- Literal `salinity` array. -/
def salinityArr : List ℚ := [34.5, 34.8, 35.1, 35.4, 35.2, 34.9, 34.7, 34.6]

/-- The `floats` DataFrame, assembled column-wise as in the source. -/
def mkFloats (now : ℤ) : List FloatRow :=
  (List.range 5).map fun i =>
    { float_id := floatIds.getD i ""
      latitude := latitudes.getD i 0
      longitude := longitudes.getD i 0
      last_update := (lastUpdates now).getD i 0
      status := statuses.getD i ""
      profiles_count := profilesCounts.getD i 0 }

/-- The `profiles` DataFrame: the three literal arrays plus the computed
column `pressure = depths * 1.02`. -/
def mkProfiles : List ProfileRow :=
  (depths.zip (temperatureArr.zip salinityArr)).map fun p =>
    { depth := p.1
      temperature := p.2.1
      salinity := p.2.2
      pressure := p.1 * (102 / 100) }

/-- Embedding of `generate_mock_argo_data`; `now` is the clock reading. -/
def generate_mock_argo_data (now : ℤ) : List FloatRow × List ProfileRow :=
  (mkFloats now, mkProfiles)

/-! ## Chat session state (src/floatchat.py lines 47-50, 241-246, 260-265) -/

/-- An entry of `st.session_state.chat_history`. -/
structure ChatMessage where
  role : String
  content : String
deriving DecidableEq

/-- The fixed assistant welcome message. -/
def welcomeMessage : ChatMessage :=
  ⟨"assistant", "Welcome to ARGO Float Data Explorer! Ask me about oceanographic data."⟩

/-- The initial chat history installed into session state. -/
def initChatHistory : List ChatMessage := [welcomeMessage]

/-- One user submission (example-button click or chat input): append the
user message verbatim, then append the assistant reply produced by
`process_nl_query`. -/
def submitQuery (history : List ChatMessage) (q : String) : List ChatMessage :=
  let withUser := history ++ [⟨"user", q⟩]
  let response := process_nl_query (codes q)
  withUser ++ [⟨"assistant", response.text⟩]

/-- Chat histories reachable from initialization by user submissions. -/
inductive ReachableChat : List ChatMessage → Prop
  | init : ReachableChat initChatHistory
  | submit (h : List ChatMessage) (q : String) :
      ReachableChat h → ReachableChat (submitQuery h q)

/-- The ambient run environment: the clock plus other per-session state
that could in principle influence a computation. -/
structure Env where
  now : ℤ
  chat_history : List ChatMessage
  pendingQuery : String

/-- `generate_mock_argo_data` as invoked during a run: it consults only
the clock field of the environment (the source reads `datetime.now()`
and nothing else). -/
def generateInEnv (e : Env) : List FloatRow × List ProfileRow :=
  generate_mock_argo_data e.now

/-! ## Chart traces (src/floatchat.py lines 108-190) -/

/-- A 2-D scatter trace: the `x` and `y` arrays handed to the plot. -/
structure ScatterTrace where
  x : List ℚ
  y : List ℚ
deriving DecidableEq

/-- `plot_temperature_profile`: x is the temperature column, y is the
negated depth column. -/
def plot_temperature_profile (df : List ProfileRow) : ScatterTrace :=
  ⟨df.map (fun r => r.temperature), df.map (fun r => -r.depth)⟩

/-- `plot_salinity_profile`: x is the salinity column, y is the negated
depth column. -/
def plot_salinity_profile (df : List ProfileRow) : ScatterTrace :=
  ⟨df.map (fun r => r.salinity), df.map (fun r => -r.depth)⟩

/-- A map trace: latitude and longitude arrays handed to the map plot. -/
structure MapTrace where
  lat : List ℚ
  lon : List ℚ
deriving DecidableEq

/-- `plot_float_map`: latitudes and longitudes of the floats table. -/
def plot_float_map (df : List FloatRow) : MapTrace :=
  ⟨df.map (fun r => r.latitude), df.map (fun r => r.longitude)⟩

/-- `plot_ts_diagram`: x is salinity, y is temperature, the marker color
array is the depth column. -/
def plot_ts_diagram (df : List ProfileRow) : ScatterTrace × List ℚ :=
  (⟨df.map (fun r => r.salinity), df.map (fun r => r.temperature)⟩,
   df.map (fun r => r.depth))

/-- The four columns of `profiles_df` exported by the CSV/JSON download
buttons. -/
def exportedProfileColumns (df : List ProfileRow) : List (List ℚ) :=
  [df.map (fun r => r.depth), df.map (fun r => r.temperature),
   df.map (fun r => r.salinity), df.map (fun r => r.pressure)]

/-- Distinct values of a list in order of first occurrence. -/
def uniquesInOrder (xs : List String) : List String :=
  xs.foldl (fun acc x => if x ∈ acc then acc else acc ++ [x]) []

/-- `value_counts()` on the `status` column: occurrence counts of the
distinct values, sorted by decreasing count (pandas default). -/
def valueCounts (xs : List String) : List ℕ :=
  List.insertionSort (fun a b => b ≤ a)
    ((uniquesInOrder xs).map (fun u => xs.count u))

/-- Every numeric series the program renders (map, profile plots, T-S
diagram, bar chart, pie chart) or exports (CSV/JSON columns), at clock
reading `now`. -/
def programNumericSeries (now : ℤ) : List (List ℚ) :=
  let fl := (generate_mock_argo_data now).1
  let pf := (generate_mock_argo_data now).2
  [(plot_float_map fl).lat, (plot_float_map fl).lon,
   (plot_temperature_profile pf).x, (plot_temperature_profile pf).y,
   (plot_salinity_profile pf).x, (plot_salinity_profile pf).y,
   (plot_ts_diagram pf).1.x, (plot_ts_diagram pf).1.y, (plot_ts_diagram pf).2]
  ++ exportedProfileColumns pf
  ++ [fl.map (fun r => (r.profiles_count : ℚ)),
      (valueCounts (fl.map (fun r => r.status))).map (fun n => (n : ℚ))]

/-- The numeric literal arrays appearing in the source: the three numeric
columns of the `floats` constructor and the three `np.array` literals. -/
def sourceLiteralNumericArrays : List (List ℚ) :=
  [latitudes, longitudes, profilesCounts.map (fun n => (n : ℚ)),
   depths, temperatureArr, salinityArr]

/-- The negated depth column, used as the y-axis of both profile plots. -/
def negatedDepths : List ℚ := depths.map (fun d => -d)

/-- The computed pressure column, `depths * 1.02`. -/
def pressureColumn : List ℚ := depths.map (fun d => d * (102 / 100))

/-- The `profiles_count` column as rationals (the bar-chart y series). -/
def profilesCountsQ : List ℚ := profilesCounts.map (fun n => (n : ℚ))

/-- The status value counts as rationals (the pie-chart series). -/
def statusValueCountsQ : List ℚ := (valueCounts statuses).map (fun n => (n : ℚ))

/-! ## Theorems -/

/-- Each code point is unchanged by a second lowercasing. -/
theorem lowerCode_idem (c : Nat) : lowerCode (lowerCode c) = lowerCode c := by
  unfold lowerCode
  by_cases h : 65 ≤ c ∧ c ≤ 90
  · have h' : ¬(65 ≤ c + 32 ∧ c + 32 ≤ 90) := by omega
    simp only [if_pos h, if_neg h']
  · simp [h]

/-- Lowercasing a string is idempotent. -/
theorem lowerStr_idem (s : List Nat) : lowerStr (lowerStr s) = lowerStr s := by
  unfold lowerStr
  rw [List.map_map]
  exact List.map_congr_left fun c _ => lowerCode_idem c

/-- C1: `process_nl_query` returns exactly one of the five canned
responses, chosen by substring checks on the lowercased query in the
fixed source order: temperature/temp, then salinity, then
float/location/map, then compare/ts, then the fallback help response. -/
theorem c1_decision_tree (q : List Nat) :
    process_nl_query q ∈
      [temperatureResponse, salinityResponse, mapResponse, compareResponse, helpResponse]
    ∧ (hitTempQ q = true → process_nl_query q = temperatureResponse)
    ∧ (hitTempQ q = false → hitSalQ q = true → process_nl_query q = salinityResponse)
    ∧ (hitTempQ q = false → hitSalQ q = false → hitMapQ q = true →
        process_nl_query q = mapResponse)
    ∧ (hitTempQ q = false → hitSalQ q = false → hitMapQ q = false →
        hitCompareQ q = true → process_nl_query q = compareResponse)
    ∧ (hitTempQ q = false → hitSalQ q = false → hitMapQ q = false →
        hitCompareQ q = false → process_nl_query q = helpResponse) := by
  cases h1 : containsSub kwTemperature (lowerStr q) <;>
    cases h1' : containsSub kwTemp (lowerStr q) <;>
    cases h2 : containsSub kwSalinity (lowerStr q) <;>
    cases h3 : containsSub kwFloat (lowerStr q) <;>
    cases h3' : containsSub kwLocation (lowerStr q) <;>
    cases h3'' : containsSub kwMap (lowerStr q) <;>
    cases h4 : containsSub kwCompare (lowerStr q) <;>
    cases h4' : containsSub kwTs (lowerStr q) <;>
    simp [process_nl_query, hitTempQ, hitSalQ, hitMapQ, hitCompareQ,
      h1, h1', h2, h3, h3', h3'', h4, h4']

/-- C1 witness: a temperature query gets the temperature response. -/
theorem c1_decision_tree_witness :
    process_nl_query (codes "Show temperature profiles") = temperatureResponse :=
  (c1_decision_tree (codes "Show temperature profiles")).2.1 (by decide)

/-- C2: any two queries whose lowercased forms agree on membership of
each of the eight keywords receive identical responses; nothing else
about the query influences the output. -/
theorem c2_keyword_noninterference (q₁ q₂ : List Nat)
    (h : ∀ k ∈ keywords, containsSub k (lowerStr q₁) = containsSub k (lowerStr q₂)) :
    process_nl_query q₁ = process_nl_query q₂ := by
  have h1 := h kwTemperature (by simp [keywords])
  have h2 := h kwTemp (by simp [keywords])
  have h3 := h kwSalinity (by simp [keywords])
  have h4 := h kwFloat (by simp [keywords])
  have h5 := h kwLocation (by simp [keywords])
  have h6 := h kwMap (by simp [keywords])
  have h7 := h kwCompare (by simp [keywords])
  have h8 := h kwTs (by simp [keywords])
  simp only [process_nl_query]
  rw [h1, h2, h3, h4, h5, h6, h7, h8]

/-- C2 witness: two different queries with the same keyword profile get
the same response. -/
theorem c2_keyword_noninterference_witness :
    process_nl_query (codes "show temp") = process_nl_query (codes "TEMPERATE") :=
  c2_keyword_noninterference (codes "show temp") (codes "TEMPERATE") (by decide)

/-- C3: on a query containing no recognized keyword, `process_nl_query`
still returns a value - the canned help response with `viz_type = None`. -/
theorem c3_fallback_total (q : List Nat)
    (h : ∀ k ∈ keywords, containsSub k (lowerStr q) = false) :
    process_nl_query q = helpResponse ∧ (process_nl_query q).viz_type = none := by
  have h1 := h kwTemperature (by simp [keywords])
  have h2 := h kwTemp (by simp [keywords])
  have h3 := h kwSalinity (by simp [keywords])
  have h4 := h kwFloat (by simp [keywords])
  have h5 := h kwLocation (by simp [keywords])
  have h6 := h kwMap (by simp [keywords])
  have h7 := h kwCompare (by simp [keywords])
  have h8 := h kwTs (by simp [keywords])
  simp [process_nl_query, h1, h2, h3, h4, h5, h6, h7, h8, helpResponse]

/-- C3 witness: the keyword-free query "hello" gets the help response. -/
theorem c3_fallback_total_witness :
    process_nl_query (codes "hello") = helpResponse
    ∧ (process_nl_query (codes "hello")).viz_type = none :=
  c3_fallback_total (codes "hello") (by decide)

/-- C8: `process_nl_query` is invariant under letter case: lowercasing
the query first does not change the response. -/
theorem c8_case_invariance (q : List Nat) :
    process_nl_query (lowerStr q) = process_nl_query q := by
  simp only [process_nl_query]
  rw [lowerStr_idem]

/-- C10: a query whose lowercased form contains "ts" anywhere - also
inside a longer word - and none of the first six keywords gets the T-S
comparison response, not the fallback. -/
theorem c10_ts_substring (q : List Nat)
    (hts : containsSub kwTs (lowerStr q) = true)
    (h1 : containsSub kwTemperature (lowerStr q) = false)
    (h2 : containsSub kwTemp (lowerStr q) = false)
    (h3 : containsSub kwSalinity (lowerStr q) = false)
    (h4 : containsSub kwFloat (lowerStr q) = false)
    (h5 : containsSub kwLocation (lowerStr q) = false)
    (h6 : containsSub kwMap (lowerStr q) = false) :
    process_nl_query q = compareResponse ∧ compareResponse.viz_type = some "compare" := by
  constructor
  · simp [process_nl_query, h1, h2, h3, h4, h5, h6, hts]
  · rfl

/-- C10 witness: "show stats" contains "ts" only inside the word "stats"
and is answered with the comparison response. -/
theorem c10_ts_substring_witness :
    process_nl_query (codes "show stats") = compareResponse
    ∧ compareResponse.viz_type = some "compare" :=
  c10_ts_substring (codes "show stats") (by decide) (by decide) (by decide)
    (by decide) (by decide) (by decide) (by decide)

/-- C4: the mock generator fabricates exactly two tables - 5 float rows
and 8 profile rows - whose values are hard-coded constants, the derived
column `pressure = depth * 1.02`, or the clock-derived `last_update`
timestamps; the non-clock content is the same at every clock reading. -/
theorem c4_mock_tables (now : ℤ) :
    (generate_mock_argo_data now).1.length = 5
    ∧ (generate_mock_argo_data now).2.length = 8
    ∧ (generate_mock_argo_data now).2.map (fun r => r.pressure)
        = (generate_mock_argo_data now).2.map (fun r => r.depth * (102 / 100))
    ∧ (generate_mock_argo_data now).1.map (fun r => r.last_update) = lastUpdates now
    ∧ (generate_mock_argo_data now).1.map
        (fun r => (r.float_id, r.latitude, r.longitude, r.status, r.profiles_count))
        = [("WMO2902756", (8.5 : ℚ), (76.2 : ℚ), "active", (145 : ℕ)),
           ("WMO2902757", 10.1, 75.8, "active", 132),
           ("WMO2902758", 12.3, 74.5, "active", 167),
           ("WMO2902759", 6.8, 77.1, "active", 89),
           ("WMO2902760", 15.2, 73.8, "inactive", 201)]
    ∧ (generate_mock_argo_data now).2 = (generate_mock_argo_data 0).2 :=
  ⟨rfl, rfl, rfl, rfl, rfl, rfl⟩

/-- The numeric series of the program, written out: each entry of
`programNumericSeries` is a source literal array or a series computed
from one. -/
theorem programNumericSeries_eq (now : ℤ) :
    programNumericSeries now =
      [latitudes, longitudes, temperatureArr, negatedDepths, salinityArr,
       negatedDepths, salinityArr, temperatureArr, depths, depths,
       temperatureArr, salinityArr, pressureColumn, profilesCountsQ,
       statusValueCountsQ] := rfl

/-- C5 counterexample: the source holds six numeric literal arrays, not
four, and the exported `pressure` column is a computed series (a
transform of `depths`), not one of the literal arrays. -/
theorem c5_counterexample :
    sourceLiteralNumericArrays.length = 6
    ∧ pressureColumn ∈ programNumericSeries 0
    ∧ pressureColumn ∉ sourceLiteralNumericArrays
    ∧ pressureColumn = mkProfiles.map (fun r => r.pressure) := by
  refine ⟨rfl, ?_, ?_, rfl⟩
  · rw [programNumericSeries_eq]
    simp
  · intro h
    simp only [sourceLiteralNumericArrays, List.mem_cons, List.not_mem_nil,
      or_false] at h
    rcases h with h | h | h | h | h | h
    · have hl := congrArg List.length h
      simp [pressureColumn, depths, latitudes] at hl
    · have hl := congrArg List.length h
      simp [pressureColumn, depths, longitudes] at hl
    · have hl := congrArg List.length h
      simp [pressureColumn, depths, profilesCounts] at hl
    · have h1 := congrArg (fun l => l.getD 1 0) h
      norm_num [pressureColumn, depths] at h1
    · have h0 := congrArg (fun l => l.getD 0 0) h
      norm_num [pressureColumn, depths, temperatureArr] at h0
    · have h0 := congrArg (fun l => l.getD 0 0) h
      norm_num [pressureColumn, depths, salinityArr] at h0

/-- C5 as amended: every numeric series the program renders or exports
is one of the six numeric literal arrays of the source, or one of three
series computed from them - the negated depth column used as the plot
y-axis, the pressure column `depths * 1.02`, or the status value counts
of the pie chart. -/
theorem c5_amended_series_origin (now : ℤ) :
    ∀ s ∈ programNumericSeries now,
      s ∈ sourceLiteralNumericArrays
      ∨ s = negatedDepths
      ∨ s = pressureColumn
      ∨ s = statusValueCountsQ := by
  intro s hs
  rw [programNumericSeries_eq] at hs
  simp only [List.mem_cons, List.not_mem_nil, or_false] at hs
  rcases hs with rfl | rfl | rfl | rfl | rfl | rfl | rfl | rfl | rfl | rfl | rfl
    | rfl | rfl | rfl | rfl <;>
    simp [sourceLiteralNumericArrays, profilesCountsQ]

/-- C5 witness: the exported pressure column is covered by the amended
classification. -/
theorem c5_amended_series_origin_witness :
    pressureColumn ∈ sourceLiteralNumericArrays
    ∨ pressureColumn = negatedDepths
    ∨ pressureColumn = pressureColumn
    ∨ pressureColumn = statusValueCountsQ :=
  c5_amended_series_origin 0 pressureColumn
    (by rw [programNumericSeries_eq]; simp)

/-- C6: the generator is deterministic given the clock - two runs whose
environments agree on the current time produce identical tables, whatever
the rest of the session state holds. -/
theorem c6_clock_determinism (e₁ e₂ : Env) (h : e₁.now = e₂.now) :
    generateInEnv e₁ = generateInEnv e₂ := by
  unfold generateInEnv
  rw [h]

/-- C6 witness: two environments differing in chat history and pending
query but agreeing on the clock get the same tables. -/
theorem c6_clock_determinism_witness :
    generateInEnv ⟨86400, initChatHistory, "show temp"⟩
      = generateInEnv ⟨86400, [], "map floats"⟩ :=
  c6_clock_determinism ⟨86400, initChatHistory, "show temp"⟩ ⟨86400, [], "map floats"⟩ rfl

/-- C7: the temperature plot places the points (temperature, -depth) and
the salinity plot the points (salinity, -depth), one point per profile
row: the plotted y-coordinate is the negation of the row's depth. -/
theorem c7_profile_plot_points (df : List ProfileRow) :
    ((plot_temperature_profile df).x.zip (plot_temperature_profile df).y)
        = df.map (fun r => (r.temperature, -r.depth))
    ∧ ((plot_salinity_profile df).x.zip (plot_salinity_profile df).y)
        = df.map (fun r => (r.salinity, -r.depth))
    ∧ ((plot_temperature_profile df).x.zip (plot_temperature_profile df).y).length
        = df.length
    ∧ ((plot_salinity_profile df).x.zip (plot_salinity_profile df).y).length
        = df.length := by
  simp [plot_temperature_profile, plot_salinity_profile, List.zip_map']

/-- C9: every reachable chat history begins with the fixed welcome
message, and a submission appends exactly two entries - the user message
verbatim then the assistant reply - leaving the existing history intact
as a prefix. -/
theorem c9_chat_append_only (h : List ChatMessage) (hr : ReachableChat h) :
    h.head? = some welcomeMessage
    ∧ ∀ q : String,
        submitQuery h q
          = h ++ [⟨"user", q⟩, ⟨"assistant", (process_nl_query (codes q)).text⟩]
        ∧ (submitQuery h q).length = h.length + 2
        ∧ (submitQuery h q).take h.length = h
        ∧ ReachableChat (submitQuery h q) := by
  have hhead : h.head? = some welcomeMessage := by
    induction hr with
    | init => rfl
    | submit h' q' hr' ih =>
        cases h' with
        | nil => simp at ih
        | cons a t => simpa [submitQuery] using ih
  refine ⟨hhead, fun q => ⟨?_, ?_, ?_, ?_⟩⟩
  · simp [submitQuery]
  · simp [submitQuery]
  · simp [submitQuery, List.append_assoc, List.take_left]
  · exact ReachableChat.submit h q hr

/-- C9 witness: submitting to the initial history grows it by exactly
two entries. -/
theorem c9_chat_append_only_witness :
    (submitQuery initChatHistory "stats").length = initChatHistory.length + 2 :=
  ((c9_chat_append_only initChatHistory ReachableChat.init).2 "stats").2.1

end FloatChat
